import Mathlib

/-!
Shallow embedding of the layered configuration loader of `the-dipsy/helix`
(`helix-term/src/config.rs` and `helix-loader/src/config.rs`).

External collaborators that live outside these two files are abstracted as
parameters:
  * `K`  stands for `HashMap<Mode, KeyTrie>` (the keymap type);
  * `E`  stands for `toml::Value` (the generic value tree);
  * `Ed` stands for `helix_view::editor::Config` (the typed editor settings);
  * `T`  stands for `toml::de::Error` (a parse error);
  * `V`  stands for `toml::Value` in the languages-config loader;
  * `mergeKeys` stands for `keymap::merge_keys`;
  * `mergeTomlValues` stands for `helix_loader::merge_toml_values`;
  * `parse` stands for `toml::from_str`;
  * `tryIntoEditor` stands for `toml::Value::try_into::<editor::Config>`;
  * `keymapDefault` stands for `keymap::default()`;
  * `editorDefault` stands for `helix_view::editor::Config::default()`.
File I/O is embedded by passing the outcome of `fs::read_to_string` on the
relevant file as an `Except IOError String` value.
-/

/-- The kind of a `std::io::Error`, as far as the loader could inspect it. -/
inductive IOErrorKind : Type where
  | notFound
  | permissionDenied
  | other
deriving DecidableEq, Repr

/-- Embedding of `std::io::Error`: a kind plus a message. -/
structure IOError : Type where
  kind : IOErrorKind
  msg : String
deriving DecidableEq, Repr

/-- Rust `enum ConfigLoadError { BadConfig(TomlError), Error(IOError) }`. -/
inductive ConfigLoadError (T : Type) : Type where
  | BadConfig : T → ConfigLoadError T
  | Error : IOError → ConfigLoadError T
deriving DecidableEq, Repr

/-- Rust `impl Default for ConfigLoadError`: a NotFound placeholder I/O error. -/
def ConfigLoadError.default (T : Type) : ConfigLoadError T :=
  ConfigLoadError.Error { kind := IOErrorKind.notFound, msg := "place holder" }

/-- Rust `struct ConfigRaw`: the partially-specified configuration read from one
file.  `K` abstracts `HashMap<Mode, KeyTrie>`, `E` abstracts `toml::Value`. -/
structure ConfigRaw (K E : Type) : Type where
  workspace_config : Option Bool
  theme : Option String
  keys : Option K
  editor : Option E
deriving DecidableEq, Repr

/-- Rust `impl Default for ConfigRaw`: `workspace_config = Some(false)`,
`theme = None`, `keys = Some(keymap::default())`, `editor = None`. -/
def ConfigRaw.default {K E : Type} (keymapDefault : K) : ConfigRaw K E :=
  { workspace_config := some false
    theme := none
    keys := some keymapDefault
    editor := none }

/-- Rust `ConfigRaw::load`: read the file (`read` is the outcome of
`fs::read_to_string`), tagging an I/O failure as `Error` and a parse
failure as `BadConfig`. -/
def ConfigRaw.load {K E T : Type} (parse : String → Except T (ConfigRaw K E))
    (read : Except IOError String) : Except (ConfigLoadError T) (ConfigRaw K E) :=
  match read with
  | Except.error e => Except.error (ConfigLoadError.Error e)
  | Except.ok source =>
    match parse source with
    | Except.error e => Except.error (ConfigLoadError.BadConfig e)
    | Except.ok config => Except.ok config

/-- Rust `ConfigRaw::merge(self, other, trust)`: field-wise merge.  When `trust`
is true the overlay may set `workspace_config`; otherwise the base value is
kept.  `theme` is overlay-wins, `keys` and `editor` deep-merge when both
sides are present. -/
def ConfigRaw.merge {K E : Type} (mergeKeys : K → K → K)
    (mergeTomlValues : E → E → Nat → E)
    (self other : ConfigRaw K E) (trust : Bool) : ConfigRaw K E :=
  { workspace_config :=
      match trust with
      | true => other.workspace_config.or self.workspace_config
      | false => self.workspace_config
    theme := other.theme.or self.theme
    keys :=
      match self.keys, other.keys with
      | some a, some b => some (mergeKeys a b)
      | optA, optB => optA.or optB
    editor :=
      match self.editor, other.editor with
      | some a, some b => some (mergeTomlValues a b 3)
      | optA, optB => optA.or optB }

/-- Rust `struct Config`: the final, fully-specified configuration. -/
structure Config (K Ed : Type) : Type where
  workspace_config : Bool
  theme : Option String
  keys : K
  editor : Ed
deriving DecidableEq, Repr

/-- Rust `impl Default for Config`: built from `ConfigRaw::default()` with the
default editor settings.  `E` is the `toml::Value` type of the intermediate
raw config. -/
def Config.default {K Ed : Type} (E : Type) (keymapDefault : K)
    (editorDefault : Ed) : Config K Ed :=
  let raw : ConfigRaw K E := ConfigRaw.default keymapDefault
  { workspace_config := raw.workspace_config.getD false
    theme := raw.theme
    keys := raw.keys.getD keymapDefault
    editor := editorDefault }

/-- Rust `impl TryFrom<ConfigRaw> for Config`: materialize a raw config, filling
unset fields with defaults; a present `editor` tree is validated by
`tryIntoEditor` and a validation failure becomes `BadConfig`. -/
def Config.tryFrom {K E Ed T : Type} (tryIntoEditor : E → Except T Ed)
    (keymapDefault : K) (editorDefault : Ed) (config : ConfigRaw K E) :
    Except (ConfigLoadError T) (Config K Ed) :=
  match config.editor with
  | none =>
    Except.ok
      { workspace_config := config.workspace_config.getD false
        theme := config.theme
        keys := config.keys.getD keymapDefault
        editor := editorDefault }
  | some e =>
    match tryIntoEditor e with
    | Except.error err => Except.error (ConfigLoadError.BadConfig err)
    | Except.ok ed =>
      Except.ok
        { workspace_config := config.workspace_config.getD false
          theme := config.theme
          keys := config.keys.getD keymapDefault
          editor := ed }

/-- Rust `Config::load`: load the global file (mandatory), merge it over the
compiled-in default with `trust = true`, then, only when the merged
`workspace_config` gate is true, attempt the workspace file, merging it
with `trust = false`; an I/O failure of the workspace file is treated as
the layer being absent, a parse failure propagates.  `globalRead` and
`workspaceRead` are the outcomes of reading the two files. -/
def Config.load {K E Ed T : Type} (mergeKeys : K → K → K)
    (mergeTomlValues : E → E → Nat → E)
    (parse : String → Except T (ConfigRaw K E))
    (tryIntoEditor : E → Except T Ed)
    (keymapDefault : K) (editorDefault : Ed)
    (globalRead workspaceRead : Except IOError String) :
    Except (ConfigLoadError T) (Config K Ed) :=
  match ConfigRaw.load parse globalRead with
  | Except.error e => Except.error e
  | Except.ok loaded =>
    let global :=
      (ConfigRaw.default keymapDefault).merge mergeKeys mergeTomlValues loaded true
    let finalRaw : Except (ConfigLoadError T) (ConfigRaw K E) :=
      match global.workspace_config.getD false with
      | false => Except.ok global
      | true =>
        match ConfigRaw.load parse workspaceRead with
        | Except.ok workspace =>
          Except.ok (global.merge mergeKeys mergeTomlValues workspace false)
        | Except.error (ConfigLoadError.Error _) => Except.ok global
        | Except.error e => Except.error e
    match finalRaw with
    | Except.error e => Except.error e
    | Except.ok raw => Config.tryFrom tryIntoEditor keymapDefault editorDefault raw

/-- Rust `merge_language_config` from `helix-loader/src/config.rs`: read the file
(`read` is the outcome of `fs::read_to_string`); a read failure yields the
left side unchanged, a parse failure propagates, otherwise deep-merge at
depth 3. -/
def merge_language_config {V T : Type} (mergeTomlValues : V → V → Nat → V)
    (parse : String → Except T V) (left : V)
    (read : Except IOError String) : Except T V :=
  match read with
  | Except.error _ => Except.ok left
  | Except.ok c =>
    match parse c with
    | Except.error e => Except.error e
    | Except.ok right => Except.ok (mergeTomlValues left right 3)

/-- Rust `user_lang_config` from `helix-loader/src/config.rs`: merge the global
languages file over the built-in default, then, only when the merged tree's
`workspace-config` key is the boolean `true`, merge the workspace languages
file on top.  `workspaceConfigKey` abstracts
`value.get("workspace-config").and_then(as_bool)`. -/
def user_lang_config {V T : Type} (mergeTomlValues : V → V → Nat → V)
    (parse : String → Except T V) (workspaceConfigKey : V → Option Bool)
    (defaultLangConfig : V)
    (globalRead workspaceRead : Except IOError String) : Except T V :=
  match merge_language_config mergeTomlValues parse defaultLangConfig globalRead with
  | Except.error e => Except.error e
  | Except.ok global =>
    match workspaceConfigKey global with
    | some true => merge_language_config mergeTomlValues parse global workspaceRead
    | _ => Except.ok global

/-! ### Concrete instantiations used by witnesses and counterexamples -/

/-- Concrete keymap merge (`K := Nat`), overlay-biased like `merge_keys`. -/
def mergeKeysNat : Nat → Nat → Nat := fun _ b => b

/-- Concrete toml merge (`E := Nat`), overlay-biased like `merge_toml_values`. -/
def mergeTomlNat : Nat → Nat → Nat → Nat := fun _ b _ => b

/-- Concrete editor validation (`E := Ed := Nat`) that always succeeds. -/
def tryIntoEditorNat : Nat → Except String Nat := fun e => Except.ok e

/-- Concrete parser: the source "t" sets `workspace-config = true`, the
source "f" sets `workspace-config = false`, anything else is a parse
error. -/
def parseDemo : String → Except String (ConfigRaw Nat Nat) :=
  fun s =>
    if s = "t" then
      Except.ok { workspace_config := some true, theme := none, keys := none, editor := none }
    else if s = "f" then
      Except.ok { workspace_config := some false, theme := none, keys := none, editor := none }
    else
      Except.error "bad toml"

/-! ### Shared helper lemmas -/

/-- Field values of a successful materialization. -/
theorem tryFrom_ok_fields {K E Ed T : Type} (tryIntoEditor : E → Except T Ed)
    (keymapDefault : K) (editorDefault : Ed) (config : ConfigRaw K E)
    (c : Config K Ed)
    (h : Config.tryFrom tryIntoEditor keymapDefault editorDefault config
        = Except.ok c) :
    c.workspace_config = config.workspace_config.getD false
    ∧ c.theme = config.theme
    ∧ c.keys = config.keys.getD keymapDefault
    ∧ (config.editor = none → c.editor = editorDefault) := by
  cases he : config.editor with
  | none =>
    simp only [Config.tryFrom, he] at h
    cases h
    simp
  | some e =>
    simp only [Config.tryFrom, he] at h
    cases hv : tryIntoEditor e with
    | error err => exact (Except.noConfusion (by simpa only [hv] using h))
    | ok ed =>
      simp only [hv] at h
      cases h
      simp [he]

/-- The `workspace_config` field of a raw merge. -/
theorem merge_workspace_config_eq {K E : Type} (mergeKeys : K → K → K)
    (mergeTomlValues : E → E → Nat → E) (base overlay : ConfigRaw K E)
    (trust : Bool) :
    (base.merge mergeKeys mergeTomlValues overlay trust).workspace_config
      = match trust with
        | true => overlay.workspace_config.or base.workspace_config
        | false => base.workspace_config := rfl

/-! ### Claims -/

/-- C1: `ConfigRaw::merge` computes the `workspace_config` field of the
result as: if `trust` is true, the overlay's value when present, otherwise
the base's; if `trust` is false, exactly the base's value regardless of the
overlay. -/
theorem ConfigRaw.merge_workspace_config_gate {K E : Type}
    (mergeKeys : K → K → K) (mergeTomlValues : E → E → Nat → E)
    (base overlay : ConfigRaw K E) :
    ((base.merge mergeKeys mergeTomlValues overlay true).workspace_config
        = match overlay.workspace_config with
          | some b => some b
          | none => base.workspace_config)
    ∧ (base.merge mergeKeys mergeTomlValues overlay false).workspace_config
        = base.workspace_config := by
  refine ⟨?_, rfl⟩
  rw [merge_workspace_config_eq]
  cases h : overlay.workspace_config <;> simp [h, Option.or]

/-- C9: merging any overlay over the compiled-in default raw config, with
either trust flag, always leaves `workspace_config` a `some`, never `none`
— so `unwrap_or_default` on the merged gate never takes its default
branch. -/
theorem ConfigRaw.default_merge_workspace_config_isSome {K E : Type}
    (mergeKeys : K → K → K) (mergeTomlValues : E → E → Nat → E)
    (keymapDefault : K) (overlay : ConfigRaw K E) (trust : Bool) :
    (((ConfigRaw.default keymapDefault).merge mergeKeys mergeTomlValues
        overlay trust).workspace_config).isSome = true := by
  cases trust with
  | false => rfl
  | true =>
    rw [merge_workspace_config_eq]
    cases h : overlay.workspace_config <;> simp [h, Option.or, ConfigRaw.default]

/-- C8: materializing the compiled-in default raw config succeeds and
yields exactly the hard-coded default `Config`. -/
theorem Config.tryFrom_default_roundtrip {K E Ed T : Type}
    (tryIntoEditor : E → Except T Ed) (keymapDefault : K)
    (editorDefault : Ed) :
    Config.tryFrom tryIntoEditor keymapDefault editorDefault
        (ConfigRaw.default keymapDefault)
      = Except.ok (Config.default E keymapDefault editorDefault) := rfl

/-- C6: materialization fails only when the `editor` sub-tree is present
and fails validation; whenever `editor` is absent or validates,
materialization succeeds, and every error it returns is the `BadConfig`
wrapping of an editor-validation failure — no other field can cause an
error. -/
theorem Config.tryFrom_error_characterisation {K E Ed T : Type}
    (tryIntoEditor : E → Except T Ed) (keymapDefault : K)
    (editorDefault : Ed) (config : ConfigRaw K E) :
    ((Config.tryFrom tryIntoEditor keymapDefault editorDefault config).isOk = true
      ↔ ∀ e, config.editor = some e → (tryIntoEditor e).isOk = true)
    ∧ ∀ err, Config.tryFrom tryIntoEditor keymapDefault editorDefault config
          = Except.error err →
        ∃ e t, config.editor = some e ∧ tryIntoEditor e = Except.error t
          ∧ err = ConfigLoadError.BadConfig t := by
  cases he : config.editor with
  | none =>
    refine ⟨⟨fun _ e hcontra => Option.noConfusion hcontra, fun _ => ?_⟩,
      fun err herr => ?_⟩
    · simp [Config.tryFrom, he, Except.isOk, Except.toBool]
    · simp [Config.tryFrom, he] at herr
  | some e =>
    cases hv : tryIntoEditor e with
    | error t =>
      refine ⟨⟨fun hok => ?_, fun hall => ?_⟩, fun err herr => ?_⟩
      · simp [Config.tryFrom, he, hv, Except.isOk, Except.toBool] at hok
      · have hex := hall e rfl
        rw [hv] at hex
        simp [Except.isOk, Except.toBool] at hex
      · refine ⟨e, t, rfl, hv, ?_⟩
        simp only [Config.tryFrom, he, hv] at herr
        cases herr
        rfl
    | ok ed =>
      refine ⟨⟨fun _ e' he' => ?_, fun _ => ?_⟩, fun err herr => ?_⟩
      · obtain rfl : e = e' := Option.some.inj he'
        rw [hv]
        rfl
      · simp [Config.tryFrom, he, hv, Except.isOk, Except.toBool]
      · simp [Config.tryFrom, he, hv] at herr

/-- Witness for C6 at a concrete raw config with no editor tree. -/
theorem Config.tryFrom_error_characterisation_witness :
    ((Config.tryFrom tryIntoEditorNat 7 9
        (ConfigRaw.mk none none none none)).isOk = true
      ↔ ∀ e, (ConfigRaw.mk none none none none : ConfigRaw Nat Nat).editor
            = some e → (tryIntoEditorNat e).isOk = true)
    ∧ ∀ err, Config.tryFrom tryIntoEditorNat 7 9
          (ConfigRaw.mk none none none none) = Except.error err →
        ∃ e t, (ConfigRaw.mk none none none none : ConfigRaw Nat Nat).editor
            = some e ∧ tryIntoEditorNat e = Except.error t
          ∧ err = ConfigLoadError.BadConfig t :=
  Config.tryFrom_error_characterisation tryIntoEditorNat 7 9
    (ConfigRaw.mk none none none none)

/-- C7: a successful materialization fills unset fields with defaults: an
absent `workspace_config` becomes `false`, the `theme` is copied across
(absent stays `none`), absent `keys` become the compiled-in default keymap
while present `keys` are used as-is, and an absent `editor` tree becomes
the default editor settings. -/
theorem Config.tryFrom_fills_defaults {K E Ed T : Type}
    (tryIntoEditor : E → Except T Ed) (keymapDefault : K)
    (editorDefault : Ed) (config : ConfigRaw K E) (c : Config K Ed)
    (h : Config.tryFrom tryIntoEditor keymapDefault editorDefault config
        = Except.ok c) :
    c.workspace_config = config.workspace_config.getD false
    ∧ c.theme = config.theme
    ∧ c.keys = config.keys.getD keymapDefault
    ∧ (config.editor = none → c.editor = editorDefault) :=
  tryFrom_ok_fields tryIntoEditor keymapDefault editorDefault config c h

/-- Witness for C7 at a concrete raw config with all fields unset. -/
theorem Config.tryFrom_fills_defaults_witness :
    Config.tryFrom tryIntoEditorNat 7 9 (ConfigRaw.mk none none none none)
        = Except.ok (Config.mk false none 7 9)
    ∧ ((Config.mk false none 7 9 : Config Nat Nat).workspace_config = false
      ∧ (Config.mk false none 7 9 : Config Nat Nat).theme = none
      ∧ (Config.mk false none 7 9 : Config Nat Nat).keys = 7
      ∧ ((ConfigRaw.mk none none none none : ConfigRaw Nat Nat).editor = none →
          (Config.mk false none 7 9 : Config Nat Nat).editor = 9)) :=
  ⟨rfl, Config.tryFrom_fills_defaults tryIntoEditorNat 7 9
    (ConfigRaw.mk none none none none) (Config.mk false none 7 9) rfl⟩

/-- C5: the global layer is mandatory: a read failure of the global file
surfaces as `Error`, and a parse failure of successfully read global
contents surfaces as `BadConfig` — `Config::load` never silently falls
back for the global layer. -/
theorem Config.load_global_mandatory {K E Ed T : Type}
    (mergeKeys : K → K → K) (mergeTomlValues : E → E → Nat → E)
    (parse : String → Except T (ConfigRaw K E))
    (tryIntoEditor : E → Except T Ed)
    (keymapDefault : K) (editorDefault : Ed)
    (globalRead workspaceRead : Except IOError String) :
    (∀ io, globalRead = Except.error io →
       Config.load mergeKeys mergeTomlValues parse tryIntoEditor keymapDefault
           editorDefault globalRead workspaceRead
         = Except.error (ConfigLoadError.Error io))
    ∧ ∀ s t, globalRead = Except.ok s → parse s = Except.error t →
        Config.load mergeKeys mergeTomlValues parse tryIntoEditor keymapDefault
            editorDefault globalRead workspaceRead
          = Except.error (ConfigLoadError.BadConfig t) := by
  constructor
  · intro io hio
    subst hio
    simp [Config.load, ConfigRaw.load]
  · intro s t hs ht
    subst hs
    simp [Config.load, ConfigRaw.load, ht]

/-- Witness for C5: a missing global file makes the whole load fail. -/
theorem Config.load_global_mandatory_witness :
    Config.load mergeKeysNat mergeTomlNat parseDemo tryIntoEditorNat 0 0
        (Except.error (IOError.mk IOErrorKind.notFound "missing"))
        (Except.ok "t")
      = Except.error (ConfigLoadError.Error
          (IOError.mk IOErrorKind.notFound "missing")) :=
  (Config.load_global_mandatory mergeKeysNat mergeTomlNat parseDemo
      tryIntoEditorNat 0 0
      (Except.error (IOError.mk IOErrorKind.notFound "missing"))
      (Except.ok "t")).1
    (IOError.mk IOErrorKind.notFound "missing") rfl

/-- Shared helper: when the global layer loads and the merged gate is
false, `Config::load` materializes the global-merged raw config and never
consults the workspace read. -/
theorem load_gate_false_eq {K E Ed T : Type} (mergeKeys : K → K → K)
    (mergeTomlValues : E → E → Nat → E)
    (parse : String → Except T (ConfigRaw K E))
    (tryIntoEditor : E → Except T Ed)
    (keymapDefault : K) (editorDefault : Ed)
    (globalRead : Except IOError String) (graw : ConfigRaw K E)
    (hg : ConfigRaw.load parse globalRead = Except.ok graw)
    (hgate : ((ConfigRaw.default keymapDefault).merge mergeKeys mergeTomlValues
        graw true).workspace_config.getD false = false) :
    ∀ workspaceRead,
      Config.load mergeKeys mergeTomlValues parse tryIntoEditor keymapDefault
          editorDefault globalRead workspaceRead
        = Config.tryFrom tryIntoEditor keymapDefault editorDefault
            ((ConfigRaw.default keymapDefault).merge mergeKeys mergeTomlValues
              graw true) := by
  intro workspaceRead
  simp only [Config.load, hg, hgate]

/-- Shared helper: when the global layer loads, the merged gate is true and
the workspace layer loads, `Config::load` materializes the untrusted merge
of the workspace layer over the global-merged raw config. -/
theorem load_gate_true_ok_eq {K E Ed T : Type} (mergeKeys : K → K → K)
    (mergeTomlValues : E → E → Nat → E)
    (parse : String → Except T (ConfigRaw K E))
    (tryIntoEditor : E → Except T Ed)
    (keymapDefault : K) (editorDefault : Ed)
    (globalRead workspaceRead : Except IOError String)
    (graw wraw : ConfigRaw K E)
    (hg : ConfigRaw.load parse globalRead = Except.ok graw)
    (hgate : ((ConfigRaw.default keymapDefault).merge mergeKeys mergeTomlValues
        graw true).workspace_config.getD false = true)
    (hw : ConfigRaw.load parse workspaceRead = Except.ok wraw) :
    Config.load mergeKeys mergeTomlValues parse tryIntoEditor keymapDefault
        editorDefault globalRead workspaceRead
      = Config.tryFrom tryIntoEditor keymapDefault editorDefault
          (((ConfigRaw.default keymapDefault).merge mergeKeys mergeTomlValues
              graw true).merge mergeKeys mergeTomlValues wraw false) := by
  simp only [Config.load, hg, hgate, hw]

/-- Shared helper: merging any overlay over the default with trust
propagates a definite overlay gate value. -/
theorem default_merge_gate_of_some {K E : Type} (mergeKeys : K → K → K)
    (mergeTomlValues : E → E → Nat → E) (keymapDefault : K)
    (graw : ConfigRaw K E) (b : Bool)
    (hb : graw.workspace_config = some b) :
    ((ConfigRaw.default keymapDefault).merge mergeKeys mergeTomlValues
        graw true).workspace_config = some b := by
  rw [merge_workspace_config_eq, hb]
  rfl

/-- C2 counterexample: the global file enables the gate, and reading the
workspace file fails with a permission error (not "file not found"); the
claim calls this fatal, but `Config::load` succeeds, treating the layer as
absent. -/
theorem Config.load_permission_denied_workspace_not_fatal :
    Config.load mergeKeysNat mergeTomlNat parseDemo tryIntoEditorNat 0 0
        (Except.ok "t")
        (Except.error (IOError.mk IOErrorKind.permissionDenied "denied"))
      = Except.ok (Config.mk true none 0 0) := rfl

/-- C2 (amended): once the gate is enabled, `Config::load` treats any I/O
failure of the workspace read — not only "file not found" — as the layer
being absent, returning the materialized global-merged config, while a
parse failure of successfully read workspace contents is fatal and
propagated as `BadConfig`. -/
theorem Config.load_workspace_io_error_not_fatal {K E Ed T : Type}
    (mergeKeys : K → K → K) (mergeTomlValues : E → E → Nat → E)
    (parse : String → Except T (ConfigRaw K E))
    (tryIntoEditor : E → Except T Ed)
    (keymapDefault : K) (editorDefault : Ed)
    (globalRead : Except IOError String) (graw : ConfigRaw K E)
    (hg : ConfigRaw.load parse globalRead = Except.ok graw)
    (hgate : ((ConfigRaw.default keymapDefault).merge mergeKeys mergeTomlValues
        graw true).workspace_config.getD false = true) :
    (∀ io : IOError,
       Config.load mergeKeys mergeTomlValues parse tryIntoEditor keymapDefault
           editorDefault globalRead (Except.error io)
         = Config.tryFrom tryIntoEditor keymapDefault editorDefault
             ((ConfigRaw.default keymapDefault).merge mergeKeys mergeTomlValues
               graw true))
    ∧ ∀ s t, parse s = Except.error t →
        Config.load mergeKeys mergeTomlValues parse tryIntoEditor keymapDefault
            editorDefault globalRead (Except.ok s)
          = Except.error (ConfigLoadError.BadConfig t) := by
  constructor
  · intro io
    simp only [Config.load, hg, hgate]
    simp only [ConfigRaw.load]
  · intro s t ht
    simp only [Config.load, hg, hgate]
    simp only [ConfigRaw.load, ht]

/-- Witness for the amended C2: a permission error on the workspace read
yields the global-merged result, at a concrete instantiation. -/
theorem Config.load_workspace_io_error_not_fatal_witness :
    Config.load mergeKeysNat mergeTomlNat parseDemo tryIntoEditorNat 0 0
        (Except.ok "t")
        (Except.error (IOError.mk IOErrorKind.permissionDenied "denied"))
      = Config.tryFrom tryIntoEditorNat 0 0
          ((ConfigRaw.default 0).merge mergeKeysNat mergeTomlNat
            (ConfigRaw.mk (some true) none none none) true) :=
  (Config.load_workspace_io_error_not_fatal mergeKeysNat mergeTomlNat
      parseDemo tryIntoEditorNat 0 0 (Except.ok "t")
      (ConfigRaw.mk (some true) none none none) rfl rfl).1
    (IOError.mk IOErrorKind.permissionDenied "denied")

/-- C3: end-to-end trust gate.  If the global file sets the gate to `true`
and the workspace file sets it to `false`, the loaded config still has
`workspace_config = true`; conversely, when the global layer establishes
`false`, the workspace read is never consulted (the result is the same for
every workspace read outcome) and the loaded config has
`workspace_config = false`. -/
theorem Config.load_trust_gate {K E Ed T : Type} (mergeKeys : K → K → K)
    (mergeTomlValues : E → E → Nat → E)
    (parse : String → Except T (ConfigRaw K E))
    (tryIntoEditor : E → Except T Ed)
    (keymapDefault : K) (editorDefault : Ed)
    (globalRead workspaceRead : Except IOError String)
    (graw : ConfigRaw K E)
    (hg : ConfigRaw.load parse globalRead = Except.ok graw) :
    (∀ wraw c, ConfigRaw.load parse workspaceRead = Except.ok wraw →
       graw.workspace_config = some true →
       wraw.workspace_config = some false →
       Config.load mergeKeys mergeTomlValues parse tryIntoEditor keymapDefault
           editorDefault globalRead workspaceRead = Except.ok c →
       c.workspace_config = true)
    ∧ (graw.workspace_config = some false →
        (∀ wr wr',
          Config.load mergeKeys mergeTomlValues parse tryIntoEditor
              keymapDefault editorDefault globalRead wr
            = Config.load mergeKeys mergeTomlValues parse tryIntoEditor
                keymapDefault editorDefault globalRead wr')
        ∧ ∀ wr c,
            Config.load mergeKeys mergeTomlValues parse tryIntoEditor
                keymapDefault editorDefault globalRead wr = Except.ok c →
            c.workspace_config = false) := by
  constructor
  · intro wraw c hw hgt hwf hload
    have hgw := default_merge_gate_of_some mergeKeys mergeTomlValues
      keymapDefault graw true hgt
    have hgate : ((ConfigRaw.default keymapDefault).merge mergeKeys
        mergeTomlValues graw true).workspace_config.getD false = true := by
      rw [hgw]; rfl
    rw [load_gate_true_ok_eq mergeKeys mergeTomlValues parse tryIntoEditor
      keymapDefault editorDefault globalRead workspaceRead graw wraw hg hgate
      hw] at hload
    have hfields := tryFrom_ok_fields tryIntoEditor keymapDefault editorDefault
      _ c hload
    rw [hfields.1, merge_workspace_config_eq, hgw]
    rfl
  · intro hgf
    have hgw := default_merge_gate_of_some mergeKeys mergeTomlValues
      keymapDefault graw false hgf
    have hgate : ((ConfigRaw.default keymapDefault).merge mergeKeys
        mergeTomlValues graw true).workspace_config.getD false = false := by
      rw [hgw]; rfl
    constructor
    · intro wr wr'
      rw [load_gate_false_eq mergeKeys mergeTomlValues parse tryIntoEditor
        keymapDefault editorDefault globalRead graw hg hgate wr,
        load_gate_false_eq mergeKeys mergeTomlValues parse tryIntoEditor
        keymapDefault editorDefault globalRead graw hg hgate wr']
    · intro wr c hload
      rw [load_gate_false_eq mergeKeys mergeTomlValues parse tryIntoEditor
        keymapDefault editorDefault globalRead graw hg hgate wr] at hload
      have hfields := tryFrom_ok_fields tryIntoEditor keymapDefault
        editorDefault _ c hload
      rw [hfields.1, hgw]
      rfl

/-- Witness for C3: global sets the gate true, workspace tries to set it
false, and the loaded config still has `workspace_config = true`. -/
theorem Config.load_trust_gate_witness :
    (Config.mk true none 0 0 : Config Nat Nat).workspace_config = true :=
  (Config.load_trust_gate mergeKeysNat mergeTomlNat parseDemo tryIntoEditorNat
      0 0 (Except.ok "t") (Except.ok "f")
      (ConfigRaw.mk (some true) none none none) rfl).1
    (ConfigRaw.mk (some false) none none none) (Config.mk true none 0 0)
    rfl rfl rfl rfl

/-- Shared helper: a failing `merge_language_config` pinpoints a
successfully read source whose parse failed. -/
theorem merge_language_config_error {V T : Type}
    (mergeTomlValues : V → V → Nat → V) (parse : String → Except T V)
    (left : V) (read : Except IOError String) (t : T)
    (h : merge_language_config mergeTomlValues parse left read
        = Except.error t) :
    ∃ s, read = Except.ok s ∧ parse s = Except.error t := by
  cases hr : read with
  | error io =>
    rw [hr] at h
    simp only [merge_language_config] at h
    cases h
  | ok s =>
    rw [hr] at h
    simp only [merge_language_config] at h
    cases hp : parse s with
    | error e =>
      rw [hp] at h
      cases h
      exact ⟨s, rfl, hp⟩
    | ok r =>
      rw [hp] at h
      cases h

/-- C4: the decision to attempt the workspace layer is made solely from the
merged gate: when it is false, `Config::load`'s result is the
materialized global-merged config for every workspace read outcome (the
workspace file is never consulted); and the languages-config loader is
gated the same way by the merged `workspace-config` key. -/
theorem Config.load_gate_decides_workspace {K E Ed T : Type}
    (mergeKeys : K → K → K) (mergeTomlValues : E → E → Nat → E)
    (parse : String → Except T (ConfigRaw K E))
    (tryIntoEditor : E → Except T Ed)
    (keymapDefault : K) (editorDefault : Ed)
    (globalRead : Except IOError String) (graw : ConfigRaw K E)
    (hg : ConfigRaw.load parse globalRead = Except.ok graw)
    (hgate : ((ConfigRaw.default keymapDefault).merge mergeKeys mergeTomlValues
        graw true).workspace_config.getD false = false) :
    (∀ workspaceRead,
      Config.load mergeKeys mergeTomlValues parse tryIntoEditor keymapDefault
          editorDefault globalRead workspaceRead
        = Config.tryFrom tryIntoEditor keymapDefault editorDefault
            ((ConfigRaw.default keymapDefault).merge mergeKeys mergeTomlValues
              graw true))
    ∧ ∀ (V T2 : Type) (mergeTomlValues2 : V → V → Nat → V)
        (parse2 : String → Except T2 V) (workspaceConfigKey : V → Option Bool)
        (defaultLangConfig g : V) (langGlobalRead : Except IOError String),
        merge_language_config mergeTomlValues2 parse2 defaultLangConfig
            langGlobalRead = Except.ok g →
        workspaceConfigKey g ≠ some true →
        ∀ wr, user_lang_config mergeTomlValues2 parse2 workspaceConfigKey
            defaultLangConfig langGlobalRead wr = Except.ok g := by
  constructor
  · exact load_gate_false_eq mergeKeys mergeTomlValues parse tryIntoEditor
      keymapDefault editorDefault globalRead graw hg hgate
  · intro V T2 mergeTomlValues2 parse2 workspaceConfigKey defaultLangConfig g
      langGlobalRead hml hwck wr
    simp only [user_lang_config, hml]

/-- Witness for C4: a gate-false global layer makes the load ignore a
workspace read that would otherwise parse, at a concrete instantiation. -/
theorem Config.load_gate_decides_workspace_witness :
    Config.load mergeKeysNat mergeTomlNat parseDemo tryIntoEditorNat 0 0
        (Except.ok "f") (Except.ok "t")
      = Config.tryFrom tryIntoEditorNat 0 0
          ((ConfigRaw.default 0).merge mergeKeysNat mergeTomlNat
            (ConfigRaw.mk (some false) none none none) true) :=
  (Config.load_gate_decides_workspace mergeKeysNat mergeTomlNat parseDemo
      tryIntoEditorNat 0 0 (Except.ok "f")
      (ConfigRaw.mk (some false) none none none) rfl rfl).1
    (Except.ok "t")

/-- C10: the languages-config loader treats any read failure of a layer as
that layer being absent, returning the left side unmerged and without
error — for the global languages file too — and every error it returns is
a parse failure of a file that was successfully read. -/
theorem user_lang_config_error_characterisation {V T : Type}
    (mergeTomlValues : V → V → Nat → V) (parse : String → Except T V)
    (workspaceConfigKey : V → Option Bool) (defaultLangConfig : V)
    (globalRead workspaceRead : Except IOError String) :
    (∀ (io : IOError) (left : V),
       merge_language_config mergeTomlValues parse left (Except.error io)
         = Except.ok left)
    ∧ ∀ t, user_lang_config mergeTomlValues parse workspaceConfigKey
          defaultLangConfig globalRead workspaceRead = Except.error t →
        ∃ s, (globalRead = Except.ok s ∨ workspaceRead = Except.ok s)
          ∧ parse s = Except.error t := by
  constructor
  · intro io left
    rfl
  · intro t ht
    cases hml : merge_language_config mergeTomlValues parse defaultLangConfig
        globalRead with
    | error e =>
      simp only [user_lang_config, hml] at ht
      injection ht with he
      subst he
      obtain ⟨s, hs, hp⟩ := merge_language_config_error mergeTomlValues parse
        defaultLangConfig globalRead e hml
      exact ⟨s, Or.inl hs, hp⟩
    | ok g =>
      simp only [user_lang_config, hml] at ht
      split at ht
      · obtain ⟨s, hs, hp⟩ := merge_language_config_error mergeTomlValues
          parse g workspaceRead t ht
        exact ⟨s, Or.inr hs, hp⟩
      · exact Except.noConfusion ht

/-- Witness for C10: both languages files fail to read; the loader returns
the built-in default tree without error, at a concrete instantiation. -/
theorem user_lang_config_error_characterisation_witness :
    merge_language_config mergeTomlNat (fun _ => Except.error "bad")
        (5 : Nat) (Except.error (IOError.mk IOErrorKind.permissionDenied "no"))
      = Except.ok 5 :=
  (user_lang_config_error_characterisation mergeTomlNat
      (fun _ => Except.error "bad") (fun _ => none) 5
      (Except.error (IOError.mk IOErrorKind.permissionDenied "no"))
      (Except.error (IOError.mk IOErrorKind.notFound "no"))).1
    (IOError.mk IOErrorKind.permissionDenied "no") 5
